import Mathlib

/-!
Verification of the `vitest-browser-qwik` SSR transform plugin.

This development shallowly embeds the plugin's core logic:
  - `src/ssr-plugin-utils.ts` (node classifiers, tree walker, detection,
    prop extraction, test-file filter, path resolution),
  - the current plugin variant `testSSR` (the file importing
    `./ssr-plugin-utils`, referred to here as the part_003 variant):
    `walkForTransformation`, finalization, `renderSSRLocalCommand`,
  - the older self-contained variant (part_004): `hasRenderSSRCall`
    with its parse-failure fallback, and its `transform` hook.

Strings are modelled as Lean `String`, but all operations are implemented
over the underlying `List Char` so that every definition reduces inside
`decide` / `rfl`.  External collaborators (the `oxc-parser` parse, the
`oxc-resolver` resolution, the file system, module loading and rendering)
are modelled as explicit oracle parameters; everything the repository
itself computes is embedded from the source.
-/

/-- JS `String.prototype.startsWith` test on char lists: `p` leads `l`. -/
def chLead : List Char → List Char → Bool
  | [], _ => true
  | _ :: _, [] => false
  | a :: ps, b :: ls => a = b && chLead ps ls

/-- Substring occurrence test on char lists (`sub` occurs inside `l`). -/
def chHasSub (sub : List Char) : List Char → Bool
  | [] => chLead sub []
  | c :: cs => chLead sub (c :: cs) || chHasSub sub cs

/-- JS `s.includes(sub)`. -/
def jsIncludes (s sub : String) : Bool := chHasSub sub.data s.data

/-- JS `s.startsWith(p)`. -/
def strStartsWith (s p : String) : Bool := chLead p.data s.data

/-- JS `s.endsWith(p)`. -/
def strEndsWith (s p : String) : Bool := chLead p.data.reverse s.data.reverse

/-- JS `s.slice(a, b)` (for the in-range uses made by the plugin). -/
def jsSlice (s : String) (a b : Nat) : String := ⟨(s.data.drop a).take (b - a)⟩

/-- JS `s.toLowerCase()` (ASCII, which is all the plugin compares). -/
def lowerStr (s : String) : String := ⟨s.data.map Char.toLower⟩

/-- JS `Array.prototype.join(sep)`. -/
def interc (sep : String) : List String → String
  | [] => ""
  | [x] => x
  | x :: y :: xs => x ++ sep ++ interc sep (y :: xs)

/-- Lower-case hex digit, for JSON control-character escapes. -/
def hexDigit (n : Nat) : Char := if n < 10 then Char.ofNat (48 + n) else Char.ofNat (87 + n)

/-- JSON escape of one character, as `JSON.stringify` performs on strings. -/
def jsonEscapeChar (c : Char) : List Char :=
  if c = '"' then ['\\', '"']
  else if c = '\\' then ['\\', '\\']
  else if c = '\n' then ['\\', 'n']
  else if c = '\t' then ['\\', 't']
  else if c = '\r' then ['\\', 'r']
  else if c = Char.ofNat 8 then ['\\', 'b']
  else if c = Char.ofNat 12 then ['\\', 'f']
  else if c.toNat < 32 then ['\\', 'u', '0', '0', hexDigit (c.toNat / 16), hexDigit (c.toNat % 16)]
  else [c]

/-- JS `JSON.stringify` applied to a string value. -/
def jsonStringifyStr (s : String) : String :=
  ⟨'"' :: (s.data.map jsonEscapeChar).flatten ++ ['"']⟩

/-- JS `JSON.stringify` applied to an array of strings. -/
def jsonStringifyArr (names : List String) : String :=
  "[" ++ interc "," (names.map jsonStringifyStr) ++ "]"

/-- JS object / `Map` assignment `r[k] = v` (`Map.set`): an existing key keeps
its insertion position and gets the new value; a new key is appended. -/
def recordSet (r : List (String × String)) (k v : String) : List (String × String) :=
  if r.any (fun p => p.1 = k) then r.map (fun p => if p.1 = k then (k, v) else p)
  else r ++ [(k, v)]

/-- JS object / `Map` lookup `r[k]` / `r.get(k)`. -/
def recordGet (r : List (String × String)) (k : String) : Option String :=
  (r.find? (fun p => p.1 = k)).map (fun p => p.2)

/-- JS `Object.keys` / `Array.from(map.keys())`, in insertion order. -/
def recordKeys (r : List (String × String)) : List String := r.map (fun p => p.1)

/-- JS `Set.add`: membership-only semantics. -/
def addName (s : List String) (n : String) : List String :=
  if s.contains n then s else s ++ [n]

/-- Splits a path string at `/` separators. -/
def splitSlashAux : List Char → List Char → List String
  | [], acc => [⟨acc.reverse⟩]
  | c :: cs, acc => if c = '/' then (⟨acc.reverse⟩ : String) :: splitSlashAux cs [] else splitSlashAux cs (c :: acc)

/-- Splits a path string into its `/`-separated segments. -/
def splitSlash (s : String) : List String := splitSlashAux s.data []

/-- Normalizes path segments: drops empty and `.` segments, lets `..` pop. -/
def normAbsSegs (segs : List String) : List String :=
  segs.foldl (fun acc s =>
    if s = "" || s = "." then acc
    else if s = ".." then acc.dropLast
    else acc ++ [s]) []

/-- POSIX `path.dirname`. -/
def pathDirname (p : String) : String :=
  let cs := p.data
  match cs.reverse.findIdx? (fun c => c = '/') with
  | none => "."
  | some i =>
      let pre := cs.take (cs.length - 1 - i)
      if pre = [] then "/" else ⟨pre⟩

/-- POSIX `path.resolve(dir, rel)`; `cwd` stands for the ambient
`process.cwd()` that node consults when `dir` is itself relative. -/
def pathResolve (cwd dir rel : String) : String :=
  let joined :=
    if strStartsWith rel "/" then rel
    else if strStartsWith dir "/" then dir ++ "/" ++ rel
    else cwd ++ "/" ++ dir ++ "/" ++ rel
  "/" ++ interc "/" (normAbsSegs (splitSlash joined))

/-- Drops the common leading segments of two segment lists and renders the
remainder as POSIX `path.relative` does. -/
def relSegs : List String → List String → String
  | f :: fs, t :: ts => if f = t then relSegs fs ts else interc "/" ((f :: fs).map (fun _ => "..") ++ t :: ts)
  | fs, ts => interc "/" (fs.map (fun _ => "..") ++ ts)

/-- POSIX `path.relative(fromP, toP)` for absolute arguments. -/
def pathRelative (fromP toP : String) : String :=
  relSegs (normAbsSegs (splitSlash fromP)) (normAbsSegs (splitSlash toP))

/-- POSIX `path.join(a, b)` as used for the temp-file path (no `..` appears). -/
def pathJoin (a b : String) : String := if a = "" then b else a ++ "/" ++ b

/-- Test-file filter of `ssr-plugin-utils.ts` (`isTestFile`). -/
def isTestFile (id : String) : Bool := jsIncludes id ".test." || jsIncludes id ".spec."

example : isTestFile "/test/a.test.tsx" = true := by decide
example : isTestFile "/src/main.tsx" = false := by decide
example : pathDirname "/t/a.test.tsx" = "/t" := by decide
example : pathResolve "/" "/t" "./Counter" = "/t/Counter" := by decide
example : pathRelative "/" "/t/Counter" = "t/Counter" := by decide
example : pathRelative "/proj" "/proj/test/src/C.tsx" = "test/src/C.tsx" := by decide
example : jsonStringifyStr "Hello" = "\"Hello\"" := by decide
example : jsonStringifyArr ["Local"] = "[\"Local\"]" := by decide

/-- Source span of an oxc syntax node (start/stop byte offsets). -/
structure Span where
  start : Nat
  stop : Nat
deriving DecidableEq, Repr

/-- Import specifier shapes distinguished by the plugin. `named` is an
`ImportSpecifier` whose `imported` is an `Identifier`; `namedOther` an
`ImportSpecifier` with a non-identifier `imported`; `defaultSpec` an
`ImportDefaultSpecifier`; `namespaceSpec` an `ImportNamespaceSpecifier`. -/
inductive ImportSpecV where
  | named (imported localName : String)
  | namedOther (localName : String)
  | defaultSpec (localName : String)
  | namespaceSpec (localName : String)
deriving DecidableEq, Repr

/-- A JSX opening-element name: the plugin only acts on `JSXIdentifier`
names; member/namespaced names are collapsed into `jsxOther`. -/
inductive JSXName where
  | jsxIdent (name : String)
  | jsxOther
deriving DecidableEq, Repr

/-- Shallow embedding of the oxc syntax-tree nodes the plugin inspects.
Constructors carry exactly the fields the plugin reads plus the node lists
its generic child traversal descends into.  Node kinds the plugin never
matches are represented by `other` (with their child nodes, so traversal
still reaches everything); the four function kinds recognized by
`isFunction` are `func`, while arrow functions (not an `isFunction` kind)
are `arrow`.  Leaf fields that the traversal visits but that match no
guard of any visitor (import specifier nodes, binding patterns, the
property identifier of a member expression) are kept as data fields. -/
inductive Node where
  | program (body : List Node) (span : Span)
  | importDecl (source : Option String) (specifiers : Option (List ImportSpecV)) (span : Span)
  | exprStmt (expr : Node) (span : Span)
  | varDeclarator (idName : Option String) (init : Option Node) (span : Span)
  | callExpr (callee : Node) (args : List Node) (span : Span)
  | ident (name : String) (span : Span)
  | member (obj : Node) (prop : String) (span : Span)
  | func (idName : Option String) (body : List Node) (span : Span)
  | arrow (body : List Node) (span : Span)
  | jsxElement (tag : JSXName) (attrs : List Node) (children : List Node) (span : Span)
  | jsxAttr (name : Option String) (value : Option Node) (span : Span)
  | jsxSpread (arg : Node) (span : Span)
  | jsxContainer (expr : Node) (span : Span)
  | jsxEmpty (span : Span)
  | strLit (value : String) (span : Span)
  | other (children : List Node) (span : Span)

/-- The `start`/`end` offsets every oxc node carries. -/
def Node.spanOf : Node → Span
  | .program _ sp => sp
  | .importDecl _ _ sp => sp
  | .exprStmt _ sp => sp
  | .varDeclarator _ _ sp => sp
  | .callExpr _ _ sp => sp
  | .ident _ sp => sp
  | .member _ _ sp => sp
  | .func _ _ sp => sp
  | .arrow _ sp => sp
  | .jsxElement _ _ _ sp => sp
  | .jsxAttr _ _ sp => sp
  | .jsxSpread _ sp => sp
  | .jsxContainer _ sp => sp
  | .jsxEmpty sp => sp
  | .strLit _ sp => sp
  | .other _ sp => sp

/-- True exactly on the `jsxEmpty` constructor (`JSXEmptyExpression`). -/
def isJSXEmptyNode : Node → Bool
  | .jsxEmpty _ => true
  | _ => false

mutual

/-- `traverseChildren`-based full recursive walk: applies `visit` to the
node and then (unconditionally) to every transitively nested child node,
depth-first and in field order, threading an accumulator.  This is the
walking discipline of `walkForTransformation`, `cleanTestFile` and
`findLastImport`, all of which always return `undefined` from the callback
so the traversal never stops early. -/
def foldWalkNode {σ : Type} (visit : σ → Node → σ) (s : σ) : Node → σ
  | .program body sp => foldWalkList visit (visit s (.program body sp)) body
  | .importDecl src specs sp => visit s (.importDecl src specs sp)
  | .exprStmt e sp => foldWalkNode visit (visit s (.exprStmt e sp)) e
  | .varDeclarator idN (some i) sp => foldWalkNode visit (visit s (.varDeclarator idN (some i) sp)) i
  | .varDeclarator idN none sp => visit s (.varDeclarator idN none sp)
  | .callExpr callee args sp => foldWalkList visit (foldWalkNode visit (visit s (.callExpr callee args sp)) callee) args
  | .ident nm sp => visit s (.ident nm sp)
  | .member obj prop sp => foldWalkNode visit (visit s (.member obj prop sp)) obj
  | .func idN body sp => foldWalkList visit (visit s (.func idN body sp)) body
  | .arrow body sp => foldWalkList visit (visit s (.arrow body sp)) body
  | .jsxElement tag attrs kids sp => foldWalkList visit (foldWalkList visit (visit s (.jsxElement tag attrs kids sp)) attrs) kids
  | .jsxAttr nm (some v) sp => foldWalkNode visit (visit s (.jsxAttr nm (some v) sp)) v
  | .jsxAttr nm none sp => visit s (.jsxAttr nm none sp)
  | .jsxSpread a sp => foldWalkNode visit (visit s (.jsxSpread a sp)) a
  | .jsxContainer e sp => foldWalkNode visit (visit s (.jsxContainer e sp)) e
  | .jsxEmpty sp => visit s (.jsxEmpty sp)
  | .strLit v sp => visit s (.strLit v sp)
  | .other kids sp => foldWalkList visit (visit s (.other kids sp)) kids

/-- Walks a list of sibling nodes left to right (array fields). -/
def foldWalkList {σ : Type} (visit : σ → Node → σ) (s : σ) : List Node → σ
  | [] => s
  | n :: ns => foldWalkList visit (foldWalkNode visit s n) ns

end

/-- Outcome of one visitor step in a traversal that can stop early (the
detection walks): `stop` propagates a found signal, `skipKids` returns
false without descending (the early `return false` statements of the
part_004 detection), `go` descends into the children. -/
inductive WalkSignal where
  | stop
  | skipKids
  | go
deriving DecidableEq, Repr

mutual

/-- `traverseChildren`-based walk with early stop, as in `walkForDetection`:
the callback's `true` return propagates up and halts the traversal. -/
def stopWalkNode {σ : Type} (visit : σ → Node → σ × WalkSignal) (s : σ) : Node → σ × Bool
  | .program body sp =>
      match visit s (.program body sp) with
      | (s1, .stop) => (s1, true)
      | (s1, .skipKids) => (s1, false)
      | (s1, .go) => stopWalkList visit s1 body
  | .importDecl src specs sp =>
      match visit s (.importDecl src specs sp) with
      | (s1, .stop) => (s1, true)
      | (s1, _) => (s1, false)
  | .exprStmt e sp =>
      match visit s (.exprStmt e sp) with
      | (s1, .stop) => (s1, true)
      | (s1, .skipKids) => (s1, false)
      | (s1, .go) => stopWalkNode visit s1 e
  | .varDeclarator idN (some i) sp =>
      match visit s (.varDeclarator idN (some i) sp) with
      | (s1, .stop) => (s1, true)
      | (s1, .skipKids) => (s1, false)
      | (s1, .go) => stopWalkNode visit s1 i
  | .varDeclarator idN none sp =>
      match visit s (.varDeclarator idN none sp) with
      | (s1, .stop) => (s1, true)
      | (s1, _) => (s1, false)
  | .callExpr callee args sp =>
      match visit s (.callExpr callee args sp) with
      | (s1, .stop) => (s1, true)
      | (s1, .skipKids) => (s1, false)
      | (s1, .go) =>
          match stopWalkNode visit s1 callee with
          | (s2, true) => (s2, true)
          | (s2, false) => stopWalkList visit s2 args
  | .ident nm sp =>
      match visit s (.ident nm sp) with
      | (s1, .stop) => (s1, true)
      | (s1, _) => (s1, false)
  | .member obj prop sp =>
      match visit s (.member obj prop sp) with
      | (s1, .stop) => (s1, true)
      | (s1, .skipKids) => (s1, false)
      | (s1, .go) => stopWalkNode visit s1 obj
  | .func idN body sp =>
      match visit s (.func idN body sp) with
      | (s1, .stop) => (s1, true)
      | (s1, .skipKids) => (s1, false)
      | (s1, .go) => stopWalkList visit s1 body
  | .arrow body sp =>
      match visit s (.arrow body sp) with
      | (s1, .stop) => (s1, true)
      | (s1, .skipKids) => (s1, false)
      | (s1, .go) => stopWalkList visit s1 body
  | .jsxElement tag attrs kids sp =>
      match visit s (.jsxElement tag attrs kids sp) with
      | (s1, .stop) => (s1, true)
      | (s1, .skipKids) => (s1, false)
      | (s1, .go) =>
          match stopWalkList visit s1 attrs with
          | (s2, true) => (s2, true)
          | (s2, false) => stopWalkList visit s2 kids
  | .jsxAttr nm (some v) sp =>
      match visit s (.jsxAttr nm (some v) sp) with
      | (s1, .stop) => (s1, true)
      | (s1, .skipKids) => (s1, false)
      | (s1, .go) => stopWalkNode visit s1 v
  | .jsxAttr nm none sp =>
      match visit s (.jsxAttr nm none sp) with
      | (s1, .stop) => (s1, true)
      | (s1, _) => (s1, false)
  | .jsxSpread a sp =>
      match visit s (.jsxSpread a sp) with
      | (s1, .stop) => (s1, true)
      | (s1, .skipKids) => (s1, false)
      | (s1, .go) => stopWalkNode visit s1 a
  | .jsxContainer e sp =>
      match visit s (.jsxContainer e sp) with
      | (s1, .stop) => (s1, true)
      | (s1, .skipKids) => (s1, false)
      | (s1, .go) => stopWalkNode visit s1 e
  | .jsxEmpty sp =>
      match visit s (.jsxEmpty sp) with
      | (s1, .stop) => (s1, true)
      | (s1, _) => (s1, false)
  | .strLit v sp =>
      match visit s (.strLit v sp) with
      | (s1, .stop) => (s1, true)
      | (s1, _) => (s1, false)
  | .other kids sp =>
      match visit s (.other kids sp) with
      | (s1, .stop) => (s1, true)
      | (s1, .skipKids) => (s1, false)
      | (s1, .go) => stopWalkList visit s1 kids

/-- Sibling list traversal with early stop: stop at the first child whose
subtree signals `true` (the `for`-loop in `traverseChildren`). -/
def stopWalkList {σ : Type} (visit : σ → Node → σ × WalkSignal) (s : σ) : List Node → σ × Bool
  | [] => (s, false)
  | n :: ns =>
      match stopWalkNode visit s n with
      | (s1, true) => (s1, true)
      | (s1, false) => stopWalkList visit s1 ns

end

/-- Predicate used by `hasCommandsImport` of `ssr-plugin-utils.ts`: an import
from `@vitest/browser/context` with a named `commands` specifier. -/
def hasCommandsImport : Node → Bool
  | .importDecl (some source) (some specs) _ =>
      source = "@vitest/browser/context" &&
      specs.any (fun spec =>
        match spec with
        | .named imported _ => imported = "commands"
        | _ => false)
  | _ => false

/-- Visitor body of `walkForDetection` in `hasRenderSSRCallInAST`
(`ssr-plugin-utils.ts`): grows the tracked-identifier set from import
specifiers, `renderSSR`-named function declarations and identifier-copy
variable declarators, and signals `stop` on a call expression whose callee
is a bare identifier in the set. -/
def detVisit (ids : List String) (n : Node) : List String × WalkSignal :=
  let ids :=
    match n with
    | .importDecl (some _) (some specs) _ =>
        specs.foldl (fun ids spec =>
          match spec with
          | .named imported localName =>
              if imported = "renderSSR" then addName ids localName else ids
          | .defaultSpec localName =>
              if jsIncludes (lowerStr localName) "renderssr" then addName ids localName else ids
          | _ => ids) ids
    | _ => ids
  let ids :=
    match n with
    | .func (some nm) _ _ => if nm = "renderSSR" then addName ids "renderSSR" else ids
    | _ => ids
  let ids :=
    match n with
    | .varDeclarator (some nm) (some (.ident inm _)) _ =>
        if ids.contains inm then addName ids nm else ids
    | _ => ids
  match n with
  | .callExpr (.ident f _) _ _ => if ids.contains f then (ids, .stop) else (ids, .go)
  | _ => (ids, .go)

/-- `hasRenderSSRCallInAST` of `ssr-plugin-utils.ts`: the structural walk
result OR-ed with the `"renderSSR("` substring fallback on the raw text. -/
def hasRenderSSRCallInAST (ast : Node) (code : String) : Bool :=
  (stopWalkNode detVisit ["renderSSR"] ast).2 || jsIncludes code "renderSSR("

/-- `extractPropsFromJSX` of `ssr-plugin-utils.ts`: ordered map from plain
`name=value` attribute names to source-text expression strings.  Spread
attributes, non-`JSXIdentifier` names and valueless attributes are
skipped; an expression container keeps the raw source slice of its
expression (unless it is a `JSXEmptyExpression`); a bare string literal is
stored as its `JSON.stringify` image. -/
def extractPropsFromJSX (attributes : List Node) (sourceCode : String) : List (String × String) :=
  attributes.foldl (fun props attr =>
    match attr with
    | .jsxAttr (some propName) (some value) _ =>
        match value with
        | .jsxContainer expr _ =>
            if isJSXEmptyNode expr then props
            else recordSet props propName (jsSlice sourceCode (Node.spanOf expr).start (Node.spanOf expr).stop)
        | .strLit v _ => recordSet props propName (jsonStringifyStr v)
        | _ => props
    | _ => props) []

/-- `fallbackResolveComponentPath` of `ssr-plugin-utils.ts`; `cwd` is the
ambient `process.cwd()` (the project root). -/
def fallbackResolveComponentPath (cwd importPath testFileId : String) : String :=
  if strStartsWith importPath "." = false then
    if strEndsWith importPath ".tsx" || strEndsWith importPath ".ts" then importPath
    else importPath ++ ".tsx"
  else
    let testFileDir := pathDirname testFileId
    let resolvedPath := pathResolve cwd testFileDir importPath
    let componentPath := "./" ++ pathRelative cwd resolvedPath
    if strEndsWith componentPath ".tsx" || strEndsWith componentPath ".ts" then componentPath
    else componentPath ++ ".tsx"

/-- Result shape of the external `oxc-resolver` `resolver.sync` call. -/
structure OxcResult where
  error : Option String
  path : Option String
deriving DecidableEq, Repr

/-- Oracle standing for the external `oxc-resolver` instance: directory and import
specifier in, resolution result out. -/
def Resolver : Type := String → String → OxcResult

/-- Warning text logged by `resolveComponentPath` when resolution fails. -/
def resolveWarnText (importPath testFileId err : String) : String :=
  "[oxc-resolver] Could not resolve \"" ++ importPath ++ "\" from \"" ++ testFileId ++
    "\": " ++ err ++ ". Using fallback resolution."

/-- `resolveComponentPath` of `ssr-plugin-utils.ts`: primary `oxc-resolver`
strategy with project-root-relative rendering, falling back (with a logged
warning) to the heuristic `fallbackResolveComponentPath`. -/
def resolveComponentPath (rslv : Resolver) (cwd importPath testFileId : String) : String × List String :=
  let testFileDir := pathDirname testFileId
  let result := rslv testFileDir importPath
  if result.error.isSome || result.path.isNone then
    (fallbackResolveComponentPath cwd importPath testFileId,
     [resolveWarnText importPath testFileId
       (match result.error with
        | some e => e
        | none => "No path resolved")])
  else
    let p := (match result.path with
              | some p => p
              | none => "")
    let relativePath := pathRelative cwd p
    (if strStartsWith relativePath "." then relativePath else "./" ++ relativePath, [])

example : fallbackResolveComponentPath "/" "./Counter" "/t/a.test.tsx" = "./t/Counter.tsx" := by decide
example :
    (extractPropsFromJSX
      [Node.jsxAttr (some "count") (some (Node.jsxContainer (Node.other [] ⟨15, 16⟩) ⟨14, 17⟩)) ⟨8, 17⟩]
      "<Comp   count={5}/>") = [("count", "5")] := by decide

/-- Mutable state threaded by `walkForTransformation` together with the
`MagicString` edit log.  `splices` records each `s.overwrite(start, end,
replacement)` in call order; `warnings` collects `console.warn` output;
`localBridgeCalls` is ghost instrumentation recording, for every rewrite
that targeted a locally-defined component, the component name and the
`allLocalComponentNames` list embedded in the replacement. -/
structure TState where
  componentImports : List (String × String)
  localComponents : List (String × String)
  renderSSRIdentifiers : List String
  hasExistingCommandsImport : Bool
  splices : List (Nat × Nat × String)
  warnings : List String
  localBridgeCalls : List (String × List String)
deriving DecidableEq, Repr

/-- Initial state of one `transform` invocation (the canonical name seeds
the tracked set; all indices empty). -/
def initialTState : TState :=
  { componentImports := []
    localComponents := []
    renderSSRIdentifiers := ["renderSSR"]
    hasExistingCommandsImport := false
    splices := []
    warnings := []
    localBridgeCalls := [] }

/-- Serialized props-object fragment: `, { "k1": v1, "k2": v2 }`, or the
empty string when no props were extracted. -/
def buildPropsStr (props : List (String × String)) : String :=
  if props.isEmpty then ""
  else ", \x7b " ++ interc ", " (props.map (fun kv => jsonStringifyStr kv.1 ++ ": " ++ kv.2)) ++ " \x7d"

/-- Replacement emitted for a locally-defined component call site
(template literal of the part_003 `walkForTransformation`, including its
indentation tabs). -/
def localReplacement (id componentName arrStr propsStr : String) : String :=
  "(async () => \x7b\n\t\t\t\t\t\t\tconst \x7b html \x7d = await commands.renderSSRLocal(\"" ++
    id ++ "\", \"" ++ componentName ++ "\", " ++ arrStr ++ propsStr ++
    ");\n\t\t\t\t\t\t\treturn renderServerHTML(html);\n\t\t\t\t\t\t\x7d)()"

/-- Replacement emitted for an imported component call site (template
literal of the part_003 `walkForTransformation`). -/
def importedReplacement (componentPath componentName propsStr : String) : String :=
  "(async () => \x7b\n\t\t\t\t\t\t\t\tconst \x7b html \x7d = await commands.renderSSR(\"" ++
    componentPath ++ "\", \"" ++ componentName ++ "\"" ++ propsStr ++
    ");\n\t\t\t\t\t\t\t\treturn renderServerHTML(html);\n\t\t\t\t\t\t\t\x7d)()"

/-- Visitor body of the part_003 `walkForTransformation`, in source order:
component-import / renderSSR-alias tracking from import declarations,
identifier-alias and `component$` local-component tracking from variable
declarators, the existing-`commands`-import check, and the call-site
rewrite (local component first, then imported component, else untouched).
The walk itself always descends into all children afterwards.  (A tracked
call with no argument at all makes the real plugin throw a `TypeError`
inside `isJSXElement`; such degenerate call sites are outside this model.) -/
def visitT (rslv : Resolver) (cwd code id : String) (st : TState) (n : Node) : TState :=
  let st :=
    match n with
    | .importDecl (some source) (some specs) _ =>
        specs.foldl (fun st spec =>
          match spec with
          | .named imported localName =>
              let st := { st with componentImports := recordSet st.componentImports imported source }
              if imported = "renderSSR" then
                { st with renderSSRIdentifiers := addName st.renderSSRIdentifiers localName }
              else st
          | .defaultSpec localName =>
              if jsIncludes (lowerStr localName) "renderssr" then
                { st with renderSSRIdentifiers := addName st.renderSSRIdentifiers localName }
              else st
          | _ => st) st
    | _ => st
  let st :=
    match n with
    | .varDeclarator (some nm) (some (.ident inm _)) _ =>
        if st.renderSSRIdentifiers.contains inm then
          { st with renderSSRIdentifiers := addName st.renderSSRIdentifiers nm }
        else st
    | _ => st
  let st :=
    match n with
    | .varDeclarator (some nm) (some (.callExpr (.ident "component$" _) _ _)) nsp =>
        { st with localComponents := recordSet st.localComponents nm (jsSlice code nsp.start nsp.stop) }
    | _ => st
  let st := if hasCommandsImport n then { st with hasExistingCommandsImport := true } else st
  match n with
  | .callExpr (.ident f _) (firstArg :: _) nsp =>
      if st.renderSSRIdentifiers.contains f then
        match firstArg with
        | .jsxElement (.jsxIdent componentName) attrs _ _ =>
            let props := extractPropsFromJSX attrs code
            let propsStr := buildPropsStr props
            match recordGet st.localComponents componentName with
            | some _ =>
                let allLocalComponentNames := recordKeys st.localComponents
                let replacement :=
                  localReplacement id componentName (jsonStringifyArr allLocalComponentNames) propsStr
                { st with
                    splices := st.splices ++ [(nsp.start, nsp.stop, replacement)]
                    localBridgeCalls := st.localBridgeCalls ++ [(componentName, allLocalComponentNames)] }
            | none =>
                match recordGet st.componentImports componentName with
                | some componentImportPath =>
                    let resolved := resolveComponentPath rslv cwd componentImportPath id
                    let replacement := importedReplacement resolved.1 componentName propsStr
                    { st with
                        splices := st.splices ++ [(nsp.start, nsp.stop, replacement)]
                        warnings := st.warnings ++ resolved.2 }
                | none => st
        | _ => st
      else st
  | _ => st

/-- Insertion sort of splices by start offset (strict comparison, so the
sort is stable: splices recorded earlier stay first among equal starts). -/
def insertSplice (e : Nat × Nat × String) : List (Nat × Nat × String) → List (Nat × Nat × String)
  | [] => [e]
  | f :: fs => if e.1 < f.1 then e :: f :: fs else f :: insertSplice e fs

/-- Sorts a splice list by start offset. -/
def sortSplices : List (Nat × Nat × String) → List (Nat × Nat × String)
  | [] => []
  | e :: es => insertSplice e (sortSplices es)

/-- `MagicString` linearization: applies a list of non-overlapping
`(start, stop, replacement)` splices (`stop = start` for inserts) to the
original text. -/
def applySplices (code : String) (splices : List (Nat × Nat × String)) : String :=
  let step := (sortSplices splices).foldl
    (fun acc spl => (acc.1 ++ jsSlice code acc.2 spl.1 ++ spl.2.2, spl.2.1)) ("", 0)
  step.1 ++ jsSlice code step.2 code.data.length

/-- Text inserted after the last import when no `commands` import exists. -/
def commandsImportText : String :=
  "\nimport \x7b commands \x7d from \"@vitest/browser/context\";\nimport \x7b renderServerHTML \x7d from \"vitest-browser-qwik\";"

/-- The auto-generated export statement appended for local components. -/
def exportStmtText (names : List String) : String :=
  "\n\n// Auto-generated exports for local components\nexport \x7b " ++ interc ", " names ++ " \x7d;"

/-- `findLastImport`: maximum `end` offset over all import declarations in
the tree (0 when there are none). -/
def maxImportEnd (ast : Node) : Nat :=
  foldWalkNode (fun acc m =>
    match m with
    | .importDecl _ _ sp => max acc sp.stop
    | _ => acc) 0 ast

/-- Splice list after finalization step one: the recorded overwrites plus,
when no `commands` import exists and the module has at least one import,
the bridge-import insertion at the last import's end offset. -/
def splicesWithImport (st : TState) (ast : Node) : List (Nat × Nat × String) :=
  if st.hasExistingCommandsImport then st.splices
  else
    let lastImportEnd := maxImportEnd ast
    if lastImportEnd > 0 then st.splices ++ [(lastImportEnd, lastImportEnd, commandsImportText)]
    else st.splices

/-- Rewritten module text before the trailing export statement. -/
def transformBody (code : String) (st : TState) (ast : Node) : String :=
  applySplices code (splicesWithImport st ast)

/-- Export-statement suffix appended by finalization (empty when no local
components were collected). -/
def exportPart (st : TState) : String :=
  if st.localComponents.isEmpty then "" else exportStmtText (recordKeys st.localComponents)

/-- Observable outcome of one `transform(code, id)` invocation of the
part_003 plugin: the returned code (`none` = "no change"; the source map
is out of scope), the number of `parseSync` invocations, the collected
`console.warn` output, and the ghost local-bridge-call trace. -/
structure TransformRun where
  result : Option String
  parseCalls : Nat
  warnings : List String
  localBridgeCalls : List (String × List String)
deriving DecidableEq, Repr

/-- The scanning/rewriting walk of one transform invocation. -/
def transformCore (rslv : Resolver) (cwd code id : String) (ast : Node) : TState :=
  foldWalkNode (visitT rslv cwd code id) initialTState ast

/-- The part_003 `testSSR().transform` hook: test-file filter, one
unconditional parse, detection, the transformation walk, and finalization
(`commands` import insertion and local-component exports) exactly when the
edit buffer changed. -/
def transformSSR (parse : String → String → Node) (rslv : Resolver) (cwd code id : String) : TransformRun :=
  if isTestFile id = false then { result := none, parseCalls := 0, warnings := [], localBridgeCalls := [] }
  else
    let ast := parse id code
    if hasRenderSSRCallInAST ast code = false then
      { result := none, parseCalls := 1, warnings := [], localBridgeCalls := [] }
    else
      let st := transformCore rslv cwd code id ast
      if st.splices.isEmpty then
        { result := none, parseCalls := 1, warnings := st.warnings, localBridgeCalls := st.localBridgeCalls }
      else
        { result := some (transformBody code st ast ++ exportPart st)
          parseCalls := 1
          warnings := st.warnings
          localBridgeCalls := st.localBridgeCalls }

/-- Visitor body of `walkForDetection` inside the part_004
`hasRenderSSRCall`.  Unlike the `ssr-plugin-utils.ts` version it contains
early `return false` statements that also skip the children: an import
declaration without source/specifiers, and a variable declarator that is
not an identifier-to-identifier copy of a tracked name. -/
def detVisitV4 (ids : List String) (n : Node) : List String × WalkSignal :=
  match n with
  | .importDecl src specs _ =>
      match src, specs with
      | some _, some specList =>
          let ids := specList.foldl (fun ids spec =>
            match spec with
            | .named imported localName =>
                if imported = "renderSSR" then addName ids localName else ids
            | .defaultSpec localName =>
                if jsIncludes (lowerStr localName) "renderssr" then addName ids localName else ids
            | _ => ids) ids
          (ids, .go)
      | _, _ => (ids, .skipKids)
  | .func (some nm) _ _ =>
      ((if nm = "renderSSR" then addName ids "renderSSR" else ids), .go)
  | .varDeclarator idN init _ =>
      match idN, init with
      | some nm, some (.ident inm _) =>
          if ids.contains inm then (addName ids nm, .go) else (ids, .skipKids)
      | _, _ => (ids, .skipKids)
  | .callExpr (.ident f _) _ _ =>
      if ids.contains f then (ids, .stop) else (ids, .go)
  | _ => (ids, .go)

/-- Warning text logged by the part_004 `hasRenderSSRCall` when the parse
throws (the two `console.warn` arguments concatenated). -/
def hrcWarnText (filename err : String) : String :=
  "Failed to parse " ++ filename ++ " for renderSSR detection, falling back to string check: " ++ err

/-- The part_004 `hasRenderSSRCall(code, filename)`: parses the module
(here: consumes the parse oracle's outcome), walks for a tracked call and
ORs in the `"renderSSR("` substring check; if the parse throws, it logs a
warning and falls back to the pure `"renderSSR"` substring check.
Returns the boolean along with the logged warnings. -/
def hasRenderSSRCallV4 (parseRes : Except String Node) (code filename : String) : Bool × List String :=
  match parseRes with
  | .ok ast => ((stopWalkNode detVisitV4 ["renderSSR"] ast).2 || jsIncludes code "renderSSR(", [])
  | .error e => (jsIncludes code "renderSSR", [hrcWarnText filename e])

/-- The part_004 `resolveComponentPath` (a pure function, textually the
fallback heuristic of `ssr-plugin-utils.ts`). -/
def resolveComponentPathV4 (cwd importPath testFileId : String) : String :=
  fallbackResolveComponentPath cwd importPath testFileId

/-- Local-component replacement template of the part_004 transform (same
shape as part_003's, with its own deeper indentation tabs). -/
def localReplacementV4 (id componentName arrStr propsStr : String) : String :=
  "(async () => \x7b\n\t\t\t\t\t\t\t\t\t\t\tconst \x7b html \x7d = await commands.renderSSRLocal(\"" ++
    id ++ "\", \"" ++ componentName ++ "\", " ++ arrStr ++ propsStr ++
    ");\n\t\t\t\t\t\t\t\t\t\t\treturn renderServerHTML(html);\n\t\t\t\t\t\t\t\t\t\t\x7d)()"

/-- Imported-component replacement template of the part_004 transform. -/
def importedReplacementV4 (componentPath componentName propsStr : String) : String :=
  "(async () => \x7b\n\t\t\t\t\t\t\t\t\t\t\t\tconst \x7b html \x7d = await commands.renderSSR(\"" ++
    componentPath ++ "\", \"" ++ componentName ++ "\"" ++ propsStr ++
    ");\n\t\t\t\t\t\t\t\t\t\t\t\treturn renderServerHTML(html);\n\t\t\t\t\t\t\t\t\t\t\t\x7d)()"

/-- Visitor body of the part_004 `walkForTransformation` (same data flow
as part_003's, with its own templates and pure path resolution). -/
def visitT4 (cwd code id : String) (st : TState) (n : Node) : TState :=
  let st :=
    match n with
    | .importDecl (some source) (some specs) _ =>
        specs.foldl (fun st spec =>
          match spec with
          | .named imported localName =>
              let st := { st with componentImports := recordSet st.componentImports imported source }
              if imported = "renderSSR" then
                { st with renderSSRIdentifiers := addName st.renderSSRIdentifiers localName }
              else st
          | .defaultSpec localName =>
              if jsIncludes (lowerStr localName) "renderssr" then
                { st with renderSSRIdentifiers := addName st.renderSSRIdentifiers localName }
              else st
          | _ => st) st
    | _ => st
  let st :=
    match n with
    | .varDeclarator (some nm) (some (.ident inm _)) _ =>
        if st.renderSSRIdentifiers.contains inm then
          { st with renderSSRIdentifiers := addName st.renderSSRIdentifiers nm }
        else st
    | _ => st
  let st := if hasCommandsImport n then { st with hasExistingCommandsImport := true } else st
  let st :=
    match n with
    | .varDeclarator (some nm) (some (.callExpr (.ident "component$" _) _ _)) nsp =>
        { st with localComponents := recordSet st.localComponents nm (jsSlice code nsp.start nsp.stop) }
    | _ => st
  match n with
  | .callExpr (.ident f _) (firstArg :: _) nsp =>
      if st.renderSSRIdentifiers.contains f then
        match firstArg with
        | .jsxElement (.jsxIdent componentName) attrs _ _ =>
            let props := extractPropsFromJSX attrs code
            let propsStr := buildPropsStr props
            match recordGet st.localComponents componentName with
            | some _ =>
                let allLocalComponentNames := recordKeys st.localComponents
                let replacement :=
                  localReplacementV4 id componentName (jsonStringifyArr allLocalComponentNames) propsStr
                { st with
                    splices := st.splices ++ [(nsp.start, nsp.stop, replacement)]
                    localBridgeCalls := st.localBridgeCalls ++ [(componentName, allLocalComponentNames)] }
            | none =>
                match recordGet st.componentImports componentName with
                | some componentImportPath =>
                    let componentPath := resolveComponentPathV4 cwd componentImportPath id
                    let replacement := importedReplacementV4 componentPath componentName propsStr
                    { st with splices := st.splices ++ [(nsp.start, nsp.stop, replacement)] }
                | none => st
        | _ => st
      else st
  | _ => st

/-- Warning text logged by the part_004 transform's local `catch`. -/
def transformFailWarnText (id err : String) : String :=
  "Failed to transform " ++ id ++ ": " ++ err

/-- The part_004 `testSSR().transform` hook: test-file filter, detection by
`hasRenderSSRCall` (with its parse-failure fallback), then a `try` block
holding the parse, walk and finalization whose `catch` logs a warning and
falls through to "no change". -/
def transformSSRV4 (parseRes : Except String Node) (cwd code id : String) : TransformRun :=
  if isTestFile id = false then { result := none, parseCalls := 0, warnings := [], localBridgeCalls := [] }
  else
    let det := hasRenderSSRCallV4 parseRes code id
    if det.1 = false then
      { result := none, parseCalls := 1, warnings := det.2, localBridgeCalls := [] }
    else
      match parseRes with
      | .error e =>
          { result := none, parseCalls := 2
            warnings := det.2 ++ [transformFailWarnText id e], localBridgeCalls := [] }
      | .ok ast =>
          let st := foldWalkNode (visitT4 cwd code id) initialTState ast
          if st.splices.isEmpty then
            { result := none, parseCalls := 2, warnings := det.2 ++ st.warnings
              localBridgeCalls := st.localBridgeCalls }
          else
            { result := some (transformBody code st ast ++ exportPart st)
              parseCalls := 2
              warnings := det.2 ++ st.warnings
              localBridgeCalls := st.localBridgeCalls }

/-- Visitor of `cleanTestFile` inside `renderSSRLocalCommand`: removes
vitest imports (`"vitest"` or any `@vitest/` source) and top-level
expression statements calling `test` / `describe` / `it`, recording
`s.remove(start, end)` splices. -/
def cleanVisit (splices : List (Nat × Nat × String)) (n : Node) : List (Nat × Nat × String) :=
  let splices :=
    match n with
    | .importDecl (some source) _ sp =>
        if source = "vitest" || jsIncludes source "@vitest/" then splices ++ [(sp.start, sp.stop, "")]
        else splices
    | _ => splices
  match n with
  | .exprStmt (.callExpr (.ident calleeName _) _ _) sp =>
      if calleeName = "test" || calleeName = "describe" || calleeName = "it" then
        splices ++ [(sp.start, sp.stop, "")]
      else splices
  | _ => splices

/-- Oracles for the effectful collaborators of `renderSSRLocalCommand`:
the truthiness of `viteServer.config.define`, `readFileSync`, the parse,
`writeFileSync`, `ssrLoadModule` (exports as name ↦ truthiness pairs),
`renderComponentToSSR`, `unlinkSync` success, `Date.now()` and the random
suffix. -/
structure LocalOracle where
  hasDefine : Bool
  readFile : Except String String
  parse : String → String → Node
  writeRes : String → Except String Unit
  loadModule : Except String (List (String × Bool))
  render : Except String String
  unlinkOk : Bool
  nowMs : Nat
  randSuffix : String

/-- Warning text of the cleanup `catch` in `renderSSRLocalCommand`. -/
def cleanupWarnText : String := "Failed to clean up temporary file:"

/-- Error message thrown when the requested local component is missing. -/
def localNotFoundMsg (componentName testFilePath : String) (exports : List (String × Bool)) : String :=
  "[vitest-browser-qwik]: Local component \"" ++ componentName ++ "\" not found in " ++
    testFilePath ++ ". Available exports: " ++ interc ", " (exports.map (fun p => p.1))

/-- Observable outcome of one `renderSSRLocalCommand` invocation:
`result` is `.ok (some html)` on success, `.ok none` for the early
`return` when `config.define` is falsy, `.error` for a rejection;
`unlinkAttempted` records whether `unlinkSync` ran; `warnings` the cleanup
warning, if any. -/
structure LocalRun where
  result : Except String (Option String)
  unlinkAttempted : Bool
  warnings : List String

/-- The part_003 `renderSSRLocalCommand`: early `return` when
`config.define` is falsy; otherwise builds the temp-file name, and inside
`try … finally`: reads the original test file, parses it, strips vitest imports
and test-declaration statements, appends exports for the
requested local names, writes the derived file, loads it, looks up the
named export (failing with the listing error if absent or falsy) and
renders it; the `finally` always attempts `unlinkSync`, downgrading a
deletion failure to a logged warning. -/
def renderSSRLocalCommand (o : LocalOracle) (testFilePath componentName : String)
    (allLocalComponents : List String) : LocalRun :=
  if o.hasDefine = false then { result := .ok none, unlinkAttempted := false, warnings := [] }
  else
    let body : Except String (Option String) :=
      match o.readFile with
      | .error e => .error e
      | .ok originalContent =>
          let ast := o.parse testFilePath originalContent
          let removals := foldWalkNode cleanVisit [] ast
          let cleaned := applySplices originalContent removals
          let cleanedContent :=
            if allLocalComponents.length > 0 then cleaned ++ exportStmtText allLocalComponents
            else cleaned
          match o.writeRes cleanedContent with
          | .error e => .error e
          | .ok _ =>
              match o.loadModule with
              | .error e => .error e
              | .ok componentModule =>
                  match componentModule.find? (fun p => p.1 = componentName) with
                  | some p =>
                      if p.2 then
                        match o.render with
                        | .error e => .error e
                        | .ok html => .ok (some html)
                      else .error (localNotFoundMsg componentName testFilePath componentModule)
                  | none => .error (localNotFoundMsg componentName testFilePath componentModule)
    { result := body
      unlinkAttempted := true
      warnings := if o.unlinkOk then [] else [cleanupWarnText] }

/-- A resolver oracle whose `resolver.sync` always reports an error, so
`resolveComponentPath` always takes its logged-warning fallback path. -/
def failingResolver : Resolver := fun _ _ => { error := some "ENOENT", path := none }

/-- Test module: aliased-import-free test file with one imported-component
call site and one unknown-tag call site (`renderServerHTML` is not imported
in this input). -/
def mod_code1 : String :=
  "import \x7b renderSSR \x7d from \"vitest-browser-qwik\";\nimport \x7b Counter \x7d from \"./Counter\";\nrenderSSR(<Counter/>);\nrenderSSR(<renderServerHTML/>);"

/-- Hand-written oxc parse of `mod_code1` (spans are byte offsets). -/
def mod_ast1 : Node :=
  .program
    [ .importDecl (some "vitest-browser-qwik") (some [.named "renderSSR" "renderSSR"]) ⟨0, 48⟩
    , .importDecl (some "./Counter") (some [.named "Counter" "Counter"]) ⟨49, 85⟩
    , .exprStmt (.callExpr (.ident "renderSSR" ⟨86, 95⟩)
        [.jsxElement (.jsxIdent "Counter") [] [] ⟨96, 106⟩] ⟨86, 107⟩) ⟨86, 108⟩
    , .exprStmt (.callExpr (.ident "renderSSR" ⟨109, 118⟩)
        [.jsxElement (.jsxIdent "renderServerHTML") [] [] ⟨119, 138⟩] ⟨109, 139⟩) ⟨109, 140⟩
    ] ⟨0, 140⟩

/-- The output the part_003 transform produces for `mod_code1`: the
`Counter` call site rewritten, the bridge imports inserted after the last
original import, the unknown-tag call site untouched. -/
def mod_code2 : String :=
  "import \x7b renderSSR \x7d from \"vitest-browser-qwik\";\nimport \x7b Counter \x7d from \"./Counter\";\nimport \x7b commands \x7d from \"@vitest/browser/context\";\nimport \x7b renderServerHTML \x7d from \"vitest-browser-qwik\";\n(async () => \x7b\n\t\t\t\t\t\t\t\tconst \x7b html \x7d = await commands.renderSSR(\"./t/Counter.tsx\", \"Counter\");\n\t\t\t\t\t\t\t\treturn renderServerHTML(html);\n\t\t\t\t\t\t\t\x7d)();\nrenderSSR(<renderServerHTML/>);"

/-- Hand-written oxc parse of `mod_code2`: four imports (two of them
inserted by the first transform run), the rewritten call site as an
async-IIFE expression statement, and the untouched unknown-tag call. -/
def mod_ast2 : Node :=
  .program
    [ .importDecl (some "vitest-browser-qwik") (some [.named "renderSSR" "renderSSR"]) ⟨0, 48⟩
    , .importDecl (some "./Counter") (some [.named "Counter" "Counter"]) ⟨49, 85⟩
    , .importDecl (some "@vitest/browser/context") (some [.named "commands" "commands"]) ⟨86, 137⟩
    , .importDecl (some "vitest-browser-qwik") (some [.named "renderServerHTML" "renderServerHTML"]) ⟨138, 193⟩
    , .exprStmt (.callExpr
        (.arrow
          [ .other [.varDeclarator none (some (.other
              [.callExpr (.member (.ident "commands" ⟨240, 248⟩) "renderSSR" ⟨240, 258⟩)
                [.strLit "./t/Counter.tsx" ⟨259, 276⟩, .strLit "Counter" ⟨278, 287⟩] ⟨240, 288⟩]
              ⟨234, 288⟩)) ⟨223, 288⟩] ⟨217, 289⟩
          , .other [.callExpr (.ident "renderServerHTML" ⟨305, 321⟩)
              [.ident "html" ⟨322, 326⟩] ⟨305, 327⟩] ⟨298, 328⟩
          ] ⟨195, 337⟩)
        [] ⟨194, 340⟩) ⟨194, 341⟩
    , .exprStmt (.callExpr (.ident "renderSSR" ⟨342, 351⟩)
        [.jsxElement (.jsxIdent "renderServerHTML") [] [] ⟨352, 371⟩] ⟨342, 372⟩) ⟨342, 373⟩
    ] ⟨0, 373⟩

/-- Parse oracle for the two-run idempotence experiment on `mod_code1`. -/
def mod_parse12 : String → String → Node := fun _ c =>
  if c = mod_code1 then mod_ast1
  else if c = mod_code2 then mod_ast2
  else .program [] ⟨0, 0⟩

/-- The canonical scenario of the spec: imported `Counter` rendered with
one expression-container prop. -/
def mod_code3 : String :=
  "import \x7b renderSSR \x7d from \"vitest-browser-qwik\";\nimport \x7b Counter \x7d from \"./Counter\";\nrenderSSR(<Counter initialCount=\x7b5\x7d/>);"

/-- Hand-written oxc parse of `mod_code3`. -/
def mod_ast3 : Node :=
  .program
    [ .importDecl (some "vitest-browser-qwik") (some [.named "renderSSR" "renderSSR"]) ⟨0, 48⟩
    , .importDecl (some "./Counter") (some [.named "Counter" "Counter"]) ⟨49, 85⟩
    , .exprStmt (.callExpr (.ident "renderSSR" ⟨86, 95⟩)
        [.jsxElement (.jsxIdent "Counter")
          [.jsxAttr (some "initialCount") (some (.jsxContainer (.other [] ⟨119, 120⟩) ⟨118, 121⟩)) ⟨105, 121⟩]
          [] ⟨96, 123⟩] ⟨86, 124⟩) ⟨86, 125⟩
    ] ⟨0, 125⟩

/-- The output the part_003 transform produces for `mod_code3`. -/
def mod_code4 : String :=
  "import \x7b renderSSR \x7d from \"vitest-browser-qwik\";\nimport \x7b Counter \x7d from \"./Counter\";\nimport \x7b commands \x7d from \"@vitest/browser/context\";\nimport \x7b renderServerHTML \x7d from \"vitest-browser-qwik\";\n(async () => \x7b\n\t\t\t\t\t\t\t\tconst \x7b html \x7d = await commands.renderSSR(\"./t/Counter.tsx\", \"Counter\", \x7b \"initialCount\": 5 \x7d);\n\t\t\t\t\t\t\t\treturn renderServerHTML(html);\n\t\t\t\t\t\t\t\x7d)();"

/-- Hand-written oxc parse of `mod_code4`: the rewritten call sites call
the bridge through a member expression, so no bare tracked identifier
remains in call position. -/
def mod_ast4 : Node :=
  .program
    [ .importDecl (some "vitest-browser-qwik") (some [.named "renderSSR" "renderSSR"]) ⟨0, 48⟩
    , .importDecl (some "./Counter") (some [.named "Counter" "Counter"]) ⟨49, 85⟩
    , .importDecl (some "@vitest/browser/context") (some [.named "commands" "commands"]) ⟨86, 137⟩
    , .importDecl (some "vitest-browser-qwik") (some [.named "renderServerHTML" "renderServerHTML"]) ⟨138, 193⟩
    , .exprStmt (.callExpr
        (.arrow
          [ .other [.varDeclarator none (some (.other
              [.callExpr (.member (.ident "commands" ⟨240, 248⟩) "renderSSR" ⟨240, 258⟩)
                [ .strLit "./t/Counter.tsx" ⟨259, 276⟩
                , .strLit "Counter" ⟨278, 287⟩
                , .other [.other [.strLit "initialCount" ⟨291, 305⟩, .other [] ⟨307, 308⟩] ⟨291, 308⟩] ⟨289, 310⟩
                ] ⟨240, 311⟩]
              ⟨234, 311⟩)) ⟨223, 311⟩] ⟨217, 312⟩
          , .other [.callExpr (.ident "renderServerHTML" ⟨328, 344⟩)
              [.ident "html" ⟨345, 349⟩] ⟨328, 350⟩] ⟨321, 351⟩
          ] ⟨195, 360⟩)
        [] ⟨194, 363⟩) ⟨194, 364⟩
    ] ⟨0, 364⟩

/-- Parse oracle for the two-run experiment on `mod_code3`. -/
def mod_parse34 : String → String → Node := fun _ c =>
  if c = mod_code3 then mod_ast3
  else if c = mod_code4 then mod_ast4
  else .program [] ⟨0, 0⟩

/-- Local-component scenario of the spec: `const Local = component$(...)`
rendered by a matched call in the same module. -/
def mod_code5 : String :=
  "import \x7b renderSSR \x7d from \"vitest-browser-qwik\";\nconst Local = component$(() => <div/>);\nrenderSSR(<Local/>);"

/-- Hand-written oxc parse of `mod_code5`. -/
def mod_ast5 : Node :=
  .program
    [ .importDecl (some "vitest-browser-qwik") (some [.named "renderSSR" "renderSSR"]) ⟨0, 48⟩
    , .other [.varDeclarator (some "Local")
        (some (.callExpr (.ident "component$" ⟨63, 73⟩)
          [.arrow [.jsxElement (.jsxIdent "div") [] [] ⟨80, 86⟩] ⟨74, 86⟩] ⟨63, 87⟩)) ⟨55, 87⟩] ⟨49, 88⟩
    , .exprStmt (.callExpr (.ident "renderSSR" ⟨89, 98⟩)
        [.jsxElement (.jsxIdent "Local") [] [] ⟨99, 107⟩] ⟨89, 108⟩) ⟨89, 109⟩
    ] ⟨0, 109⟩

/-- Parse oracle for the local-component scenario. -/
def mod_parse5 : String → String → Node := fun _ c =>
  if c = mod_code5 then mod_ast5 else .program [] ⟨0, 0⟩

/-- A test-file module with no occurrence of the trigger name at all. -/
def mod_code6 : String :=
  "const a = 1;"

/-- Hand-written oxc parse of `mod_code6`. -/
def mod_ast6 : Node :=
  .program [.other [.varDeclarator (some "a") (some (.other [] ⟨10, 11⟩)) ⟨6, 11⟩] ⟨0, 12⟩] ⟨0, 12⟩

/-- Parse oracle for `mod_code6`. -/
def mod_parse6 : String → String → Node := fun _ c =>
  if c = mod_code6 then mod_ast6 else .program [] ⟨0, 0⟩

set_option maxRecDepth 16384

/-- Helper: appending the empty string is the identity. -/
theorem string_append_empty (s : String) : s ++ "" = s := by
  cases s with
  | mk data => show String.append _ _ = _; simp [String.append]

/-- C1: for every input pair whose module id contains neither ".test." nor
".spec.", the transform hook returns null and does nothing else (no parse,
no warnings, no rewrites), regardless of the source text. -/
theorem c1_transform_ignores_non_test_files (parse : String → String → Node) (rslv : Resolver)
    (cwd code id : String)
    (h1 : jsIncludes id ".test." = false) (h2 : jsIncludes id ".spec." = false) :
    transformSSR parse rslv cwd code id
      = { result := none, parseCalls := 0, warnings := [], localBridgeCalls := [] } := by
  have ht : isTestFile id = false := by simp [isTestFile, h1, h2]
  simp [transformSSR, ht]

/-- Witness for C1 at a concrete non-test module id. -/
theorem c1_transform_ignores_non_test_files_witness :
    (jsIncludes "/src/main.tsx" ".test." = false ∧ jsIncludes "/src/main.tsx" ".spec." = false)
    ∧ transformSSR (fun _ _ => .program [] ⟨0, 0⟩) failingResolver "/" "renderSSR(<Counter/>);" "/src/main.tsx"
        = { result := none, parseCalls := 0, warnings := [], localBridgeCalls := [] } :=
  ⟨⟨by decide, by decide⟩,
   c1_transform_ignores_non_test_files (fun _ _ => .program [] ⟨0, 0⟩) failingResolver "/"
     "renderSSR(<Counter/>);" "/src/main.tsx" (by decide) (by decide)⟩

/-- C2: a matched call whose JSX tag is neither a local component nor an imported
component records no edit (the visitor leaves the state
unchanged), the walk still descends into the call's children, and a
transform whose walk recorded no edit at all returns null. -/
theorem c2_unknown_tag_call_left_untouched :
    (∀ (rslv : Resolver) (cwd code id : String) (st : TState) (f tag : String)
       (fsp jsp sp : Span) (attrs kids rest : List Node),
       st.renderSSRIdentifiers.contains f = true →
       recordGet st.localComponents tag = none →
       recordGet st.componentImports tag = none →
       visitT rslv cwd code id st
           (.callExpr (.ident f fsp) (.jsxElement (.jsxIdent tag) attrs kids jsp :: rest) sp) = st
       ∧ foldWalkNode (visitT rslv cwd code id) st
           (.callExpr (.ident f fsp) (.jsxElement (.jsxIdent tag) attrs kids jsp :: rest) sp)
         = foldWalkList (visitT rslv cwd code id) st
             (Node.ident f fsp :: Node.jsxElement (.jsxIdent tag) attrs kids jsp :: rest))
    ∧ (∀ (parse : String → String → Node) (rslv : Resolver) (cwd code id : String),
        (transformCore rslv cwd code id (parse id code)).splices = [] →
        (transformSSR parse rslv cwd code id).result = none) := by
  constructor
  · intro rslv cwd code id st f tag fsp jsp sp attrs kids rest h1 h2 h3
    have hv : visitT rslv cwd code id st
        (.callExpr (.ident f fsp) (.jsxElement (.jsxIdent tag) attrs kids jsp :: rest) sp) = st := by
      simp [visitT, hasCommandsImport, h1, h2, h3]
    refine ⟨hv, ?_⟩
    simp only [foldWalkNode, foldWalkList, hv]
  · intro parse rslv cwd code id h
    by_cases ht : isTestFile id = false
    · simp [transformSSR, ht]
    · by_cases hd : hasRenderSSRCallInAST (parse id code) code = false
      · simp [transformSSR, ht, hd]
      · simp [transformSSR, ht, hd, h]

/-- Witness for C2: an unknown tag (`Unknown`) under the initial state and
a whole-module run that records no edit and returns null. -/
theorem c2_unknown_tag_call_left_untouched_witness :
    (initialTState.renderSSRIdentifiers.contains "renderSSR" = true
     ∧ recordGet initialTState.localComponents "Unknown" = none
     ∧ recordGet initialTState.componentImports "Unknown" = none
     ∧ visitT failingResolver "/" "renderSSR(<Unknown/>);" "/t/a.test.tsx" initialTState
         (.callExpr (.ident "renderSSR" ⟨0, 9⟩) (.jsxElement (.jsxIdent "Unknown") [] [] ⟨10, 20⟩ :: []) ⟨0, 21⟩)
       = initialTState)
    ∧ (transformCore failingResolver "/" "renderSSR(<Unknown/>);" "/t/a.test.tsx"
        ((fun _ _ => Node.program
          [.exprStmt (.callExpr (.ident "renderSSR" ⟨0, 9⟩)
            [.jsxElement (.jsxIdent "Unknown") [] [] ⟨10, 20⟩] ⟨0, 21⟩) ⟨0, 22⟩] ⟨0, 22⟩)
          "/t/a.test.tsx" "renderSSR(<Unknown/>);")).splices = []
    ∧ (transformSSR
        (fun _ _ => Node.program
          [.exprStmt (.callExpr (.ident "renderSSR" ⟨0, 9⟩)
            [.jsxElement (.jsxIdent "Unknown") [] [] ⟨10, 20⟩] ⟨0, 21⟩) ⟨0, 22⟩] ⟨0, 22⟩)
        failingResolver "/" "renderSSR(<Unknown/>);" "/t/a.test.tsx").result = none :=
  ⟨⟨by decide, by decide, by decide,
    ((c2_unknown_tag_call_left_untouched.1 failingResolver "/" "renderSSR(<Unknown/>);" "/t/a.test.tsx"
        initialTState "renderSSR" "Unknown" ⟨0, 9⟩ ⟨10, 20⟩ ⟨0, 21⟩ [] [] []
        (by decide) (by decide) (by decide)).1)⟩,
   by decide,
   c2_unknown_tag_call_left_untouched.2
     (fun _ _ => Node.program
       [.exprStmt (.callExpr (.ident "renderSSR" ⟨0, 9⟩)
         [.jsxElement (.jsxIdent "Unknown") [] [] ⟨10, 20⟩] ⟨0, 21⟩) ⟨0, 22⟩] ⟨0, 22⟩)
     failingResolver "/" "renderSSR(<Unknown/>);" "/t/a.test.tsx" (by decide)⟩

/-- C3 counterexample: the transform is not idempotent in general.  On
`mod_code1` (one `Counter` call, one unknown-tag
`renderSSR(<renderServerHTML/>)` call) the first run produces
`mod_code2`; the second run on that output rewrites the previously
untouched call site — the transform itself inserted
`import { renderServerHTML } from "vitest-browser-qwik"`, so the formerly
unknown tag is now a key of the component-import index — and therefore
returns a change instead of null. -/
theorem c3_idempotence_counterexample :
    (transformSSR mod_parse12 failingResolver "/" mod_code1 "/t/a.test.tsx").result = some mod_code2
    ∧ (transformSSR mod_parse12 failingResolver "/" mod_code2 "/t/a.test.tsx").result ≠ none :=
  ⟨by decide, by decide⟩

/-- C3 amended: idempotence does hold when the first run rewrote every
matched call site (no unknown-tag call left untouched): on the canonical
scenario the first run maps `mod_code3` to `mod_code4`, whose rewritten
call sites invoke the bridge through `commands.renderSSR` (a member
expression, not a bare tracked identifier); the second run still passes
detection — the output contains the substring `renderSSR(` — but records
no edit and returns null. -/
theorem c3_idempotence_amended :
    (transformSSR mod_parse34 failingResolver "/" mod_code3 "/t/a.test.tsx").result = some mod_code4
    ∧ hasRenderSSRCallInAST mod_ast4 mod_code4 = true
    ∧ jsIncludes mod_code4 "renderSSR(" = true
    ∧ (transformSSR mod_parse34 failingResolver "/" mod_code4 "/t/a.test.tsx").result = none :=
  ⟨by decide, by decide, by decide, by decide⟩

/-- C4: prop extraction maps an expression-container attribute to the
exact source slice of its expression, a string-literal attribute to the
JSON-stringified literal value, and silently skips spread attributes. -/
theorem c4_prop_extraction_shapes :
    (∀ (code nm : String) (expr : Node) (csp asp : Span),
       isJSXEmptyNode expr = false →
       extractPropsFromJSX [.jsxAttr (some nm) (some (.jsxContainer expr csp)) asp] code
         = [(nm, jsSlice code (Node.spanOf expr).start (Node.spanOf expr).stop)])
    ∧ (∀ (code nm v : String) (vsp asp : Span),
       extractPropsFromJSX [.jsxAttr (some nm) (some (.strLit v vsp)) asp] code
         = [(nm, jsonStringifyStr v)])
    ∧ (∀ (code : String) (a : Node) (ssp : Span) (rest : List Node),
       extractPropsFromJSX (.jsxSpread a ssp :: rest) code = extractPropsFromJSX rest code) := by
  refine ⟨?_, ?_, ?_⟩
  · intro code nm expr csp asp h
    simp [extractPropsFromJSX, h, recordSet]
  · intro code nm v vsp asp
    simp [extractPropsFromJSX, recordSet]
  · intro code a ssp rest
    simp [extractPropsFromJSX]

/-- Witness for C4: `count={5}` yields `"count" ↦ 5` (the source slice),
`title="Hello"` yields `"title" ↦ "Hello"` (JSON-quoted), `items={items}`
yields the bare identifier text, a spread attribute yields nothing. -/
theorem c4_prop_extraction_shapes_witness :
    (isJSXEmptyNode (Node.other [] ⟨13, 14⟩) = false
     ∧ extractPropsFromJSX [.jsxAttr (some "count") (some (.jsxContainer (.other [] ⟨13, 14⟩) ⟨12, 15⟩)) ⟨6, 15⟩]
         "<Comp count=\x7b5\x7d/>"
         = [("count", jsSlice "<Comp count=\x7b5\x7d/>" 13 14)]
     ∧ jsSlice "<Comp count=\x7b5\x7d/>" 13 14 = "5")
    ∧ (extractPropsFromJSX [.jsxAttr (some "title") (some (.strLit "Hello" ⟨12, 19⟩)) ⟨6, 19⟩]
         "<Comp title=\"Hello\"/>"
         = [("title", jsonStringifyStr "Hello")]
       ∧ jsonStringifyStr "Hello" = "\"Hello\"")
    ∧ (isJSXEmptyNode (Node.ident "items" ⟨13, 18⟩) = false
       ∧ extractPropsFromJSX [.jsxAttr (some "items") (some (.jsxContainer (.ident "items" ⟨13, 18⟩) ⟨12, 19⟩)) ⟨6, 19⟩]
           "<Comp items=\x7bitems\x7d/>"
           = [("items", jsSlice "<Comp items=\x7bitems\x7d/>" 13 18)]
       ∧ jsSlice "<Comp items=\x7bitems\x7d/>" 13 18 = "items")
    ∧ extractPropsFromJSX [.jsxSpread (.ident "props" ⟨10, 15⟩) ⟨6, 16⟩] "<Comp \x7b...props\x7d/>" = [] :=
  ⟨⟨by decide,
    c4_prop_extraction_shapes.1 "<Comp count=\x7b5\x7d/>" "count" (.other [] ⟨13, 14⟩) ⟨12, 15⟩ ⟨6, 15⟩ (by decide),
    by decide⟩,
   ⟨c4_prop_extraction_shapes.2.1 "<Comp title=\"Hello\"/>" "title" "Hello" ⟨12, 19⟩ ⟨6, 19⟩, by decide⟩,
   ⟨by decide,
    c4_prop_extraction_shapes.1 "<Comp items=\x7bitems\x7d/>" "items" (.ident "items" ⟨13, 18⟩) ⟨12, 19⟩ ⟨6, 19⟩ (by decide),
    by decide⟩,
   c4_prop_extraction_shapes.2.2 "<Comp \x7b...props\x7d/>" (.ident "props" ⟨10, 15⟩) ⟨6, 16⟩ []⟩

/-- C5: (i) a matched call on a locally-defined component records an edit
whose replacement embeds the json-serialized FULL ordered key list of the
local-component index (not only the rendered name), recorded likewise in
the ghost bridge-call trace; (ii) finalization: when the walk recorded at
least one edit, the export statement listing every tracked local name is
appended exactly when at least one local component was collected, and no
result is produced at all when no edit was recorded. -/
theorem c5_local_full_list_and_exports :
    (∀ (rslv : Resolver) (cwd code id : String) (st : TState) (f tag v : String)
       (fsp jsp sp : Span) (attrs kids rest : List Node),
       st.renderSSRIdentifiers.contains f = true →
       recordGet st.localComponents tag = some v →
       visitT rslv cwd code id st
           (.callExpr (.ident f fsp) (.jsxElement (.jsxIdent tag) attrs kids jsp :: rest) sp)
         = { st with
               splices := st.splices ++ [(sp.start, sp.stop,
                 localReplacement id tag (jsonStringifyArr (recordKeys st.localComponents))
                   (buildPropsStr (extractPropsFromJSX attrs code)))]
               localBridgeCalls := st.localBridgeCalls ++ [(tag, recordKeys st.localComponents)] })
    ∧ (∀ (parse : String → String → Node) (rslv : Resolver) (cwd code id : String),
        isTestFile id = true →
        hasRenderSSRCallInAST (parse id code) code = true →
        (transformCore rslv cwd code id (parse id code)).splices ≠ [] →
        (transformCore rslv cwd code id (parse id code)).localComponents ≠ [] →
        (transformSSR parse rslv cwd code id).result
          = some (transformBody code (transformCore rslv cwd code id (parse id code)) (parse id code)
              ++ exportStmtText (recordKeys (transformCore rslv cwd code id (parse id code)).localComponents)))
    ∧ (∀ (parse : String → String → Node) (rslv : Resolver) (cwd code id : String),
        isTestFile id = true →
        hasRenderSSRCallInAST (parse id code) code = true →
        (transformCore rslv cwd code id (parse id code)).splices ≠ [] →
        (transformCore rslv cwd code id (parse id code)).localComponents = [] →
        (transformSSR parse rslv cwd code id).result
          = some (transformBody code (transformCore rslv cwd code id (parse id code)) (parse id code)))
    ∧ (∀ (parse : String → String → Node) (rslv : Resolver) (cwd code id : String),
        isTestFile id = true →
        hasRenderSSRCallInAST (parse id code) code = true →
        (transformCore rslv cwd code id (parse id code)).splices = [] →
        (transformSSR parse rslv cwd code id).result = none) := by
  refine ⟨?_, ?_, ?_, ?_⟩
  · intro rslv cwd code id st f tag v fsp jsp sp attrs kids rest h1 h2
    have h1m : f ∈ st.renderSSRIdentifiers := by simpa using h1
    simp [visitT, hasCommandsImport, h1m, h2]
  · intro parse rslv cwd code id ht hd hspl hloc
    have h1 : (transformCore rslv cwd code id (parse id code)).splices.isEmpty = false := by
      cases hs : (transformCore rslv cwd code id (parse id code)).splices with
      | nil => exact absurd hs hspl
      | cons a l => rfl
    have h2 : (transformCore rslv cwd code id (parse id code)).localComponents.isEmpty = false := by
      cases hs : (transformCore rslv cwd code id (parse id code)).localComponents with
      | nil => exact absurd hs hloc
      | cons a l => rfl
    simp [transformSSR, ht, hd, h1, exportPart, h2]
  · intro parse rslv cwd code id ht hd hspl hloc
    have h1 : (transformCore rslv cwd code id (parse id code)).splices.isEmpty = false := by
      cases hs : (transformCore rslv cwd code id (parse id code)).splices with
      | nil => exact absurd hs hspl
      | cons a l => rfl
    simp [transformSSR, ht, hd, h1, exportPart, hloc, string_append_empty]
  · intro parse rslv cwd code id ht hd hspl
    simp [transformSSR, ht, hd, hspl]

/-- Witness for C5 on the local-component scenario `mod_code5`: the
visitor at the matched `renderSSR(<Local/>)` call records the replacement
carrying `["Local"]`, the whole-module run traces exactly that bridge
call, and the produced output ends with the generated
`export { Local };` statement. -/
theorem c5_local_full_list_and_exports_witness :
    (({ initialTState with
          componentImports := [("renderSSR", "vitest-browser-qwik")]
          localComponents := [("Local", "Local = component$(() => <div/>)")] } : TState).renderSSRIdentifiers.contains "renderSSR" = true
     ∧ recordGet [("Local", "Local = component$(() => <div/>)")] "Local" = some "Local = component$(() => <div/>)"
     ∧ visitT failingResolver "/" mod_code5 "/t/a.test.tsx"
         { initialTState with
             componentImports := [("renderSSR", "vitest-browser-qwik")]
             localComponents := [("Local", "Local = component$(() => <div/>)")] }
         (.callExpr (.ident "renderSSR" ⟨89, 98⟩) (.jsxElement (.jsxIdent "Local") [] [] ⟨99, 107⟩ :: []) ⟨89, 108⟩)
       = { initialTState with
             componentImports := [("renderSSR", "vitest-browser-qwik")]
             localComponents := [("Local", "Local = component$(() => <div/>)")]
             splices := [(89, 108, localReplacement "/t/a.test.tsx" "Local" (jsonStringifyArr ["Local"])
               (buildPropsStr (extractPropsFromJSX [] mod_code5)))]
             localBridgeCalls := [("Local", ["Local"])] })
    ∧ (transformSSR mod_parse5 failingResolver "/" mod_code5 "/t/a.test.tsx").localBridgeCalls
        = [("Local", ["Local"])]
    ∧ (transformSSR mod_parse5 failingResolver "/" mod_code5 "/t/a.test.tsx").result
        = some (transformBody mod_code5 (transformCore failingResolver "/" mod_code5 "/t/a.test.tsx" mod_ast5) mod_ast5
            ++ exportStmtText (recordKeys (transformCore failingResolver "/" mod_code5 "/t/a.test.tsx" mod_ast5).localComponents))
    ∧ (transformSSR mod_parse5 failingResolver "/" mod_code5 "/t/a.test.tsx").result.map
        (fun out => strEndsWith out (exportStmtText ["Local"])) = some true :=
  ⟨⟨by decide, by decide,
    c5_local_full_list_and_exports.1 failingResolver "/" mod_code5 "/t/a.test.tsx"
      { initialTState with
          componentImports := [("renderSSR", "vitest-browser-qwik")]
          localComponents := [("Local", "Local = component$(() => <div/>)")] }
      "renderSSR" "Local" "Local = component$(() => <div/>)" ⟨89, 98⟩ ⟨99, 107⟩ ⟨89, 108⟩ [] [] []
      (by decide) (by decide)⟩,
   by decide,
   c5_local_full_list_and_exports.2.1 mod_parse5 failingResolver "/" mod_code5 "/t/a.test.tsx"
     (by decide) (by decide) (by decide) (by decide),
   by decide⟩

/-- C6 counterexample: on a test-file module whose text contains no
occurrence of `renderSSR` at all, the transform does return "no change",
but only AFTER invoking the parser once — the part_003 `transform` calls
`parseSync` unconditionally before `hasRenderSSRCallInAST`, so there is no
pre-parse substring fast-reject (the claim asserts `parseCalls` would be
0 here; it is 1). -/
theorem c6_fast_reject_counterexample :
    (transformSSR mod_parse6 failingResolver "/" mod_code6 "/t/a.test.tsx").result = none
    ∧ ¬ (transformSSR mod_parse6 failingResolver "/" mod_code6 "/t/a.test.tsx").parseCalls = 0
    ∧ (transformSSR mod_parse6 failingResolver "/" mod_code6 "/t/a.test.tsx").parseCalls = 1 :=
  ⟨by decide, by decide, by decide⟩

/-- C6 amended: for every test-file module on which detection fails — in
particular whenever the raw text lacks the trigger substring and the walk
finds no tracked call — the transform returns "no change", after exactly
one parse: the substring check lives inside detection, after the AST
walk, not before the parse. -/
theorem c6_no_trigger_no_change_after_parse (parse : String → String → Node) (rslv : Resolver)
    (cwd code id : String)
    (h1 : isTestFile id = true)
    (h2 : hasRenderSSRCallInAST (parse id code) code = false) :
    transformSSR parse rslv cwd code id
      = { result := none, parseCalls := 1, warnings := [], localBridgeCalls := [] } := by
  simp [transformSSR, h1, h2]

/-- Witness for C6 at the concrete trigger-free test module. -/
theorem c6_no_trigger_no_change_after_parse_witness :
    (isTestFile "/t/a.test.tsx" = true
     ∧ hasRenderSSRCallInAST (mod_parse6 "/t/a.test.tsx" mod_code6) mod_code6 = false)
    ∧ transformSSR mod_parse6 failingResolver "/" mod_code6 "/t/a.test.tsx"
        = { result := none, parseCalls := 1, warnings := [], localBridgeCalls := [] } :=
  ⟨⟨by decide, by decide⟩,
   c6_no_trigger_no_change_after_parse mod_parse6 failingResolver "/" mod_code6 "/t/a.test.tsx"
     (by decide) (by decide)⟩

/-- C7: when the parse throws, the part_004 `hasRenderSSRCall` catches it
locally, logs its warning and falls back to the pure `renderSSR` substring
check; the surrounding part_004 `transform` then returns "no change" on a
test file (either because the fallback said "no trigger", or because its
own `try` block re-parses, fails again, logs and falls through to null),
with the parse-failure warning among the logged warnings. -/
theorem c7_parse_failure_fallback :
    (∀ (e code filename : String),
       hasRenderSSRCallV4 (.error e) code filename
         = (jsIncludes code "renderSSR", [hrcWarnText filename e]))
    ∧ (∀ (e cwd code id : String),
        isTestFile id = true →
        (transformSSRV4 (.error e) cwd code id).result = none
        ∧ hrcWarnText id e ∈ (transformSSRV4 (.error e) cwd code id).warnings) := by
  refine ⟨fun e code filename => rfl, ?_⟩
  intro e cwd code id ht
  by_cases hj : jsIncludes code "renderSSR" = true
  · constructor <;> simp [transformSSRV4, hasRenderSSRCallV4, ht, hj]
  · constructor <;> simp [transformSSRV4, hasRenderSSRCallV4, ht, hj]

/-- Witness for C7 at a concrete unparseable test module. -/
theorem c7_parse_failure_fallback_witness :
    (hasRenderSSRCallV4 (.error "Unexpected token") "renderSSR(<Broken" "/x/a.test.tsx"
       = (jsIncludes "renderSSR(<Broken" "renderSSR", [hrcWarnText "/x/a.test.tsx" "Unexpected token"]))
    ∧ (isTestFile "/x/a.test.tsx" = true)
    ∧ (transformSSRV4 (.error "Unexpected token") "/" "renderSSR(<Broken" "/x/a.test.tsx").result = none
    ∧ hrcWarnText "/x/a.test.tsx" "Unexpected token"
        ∈ (transformSSRV4 (.error "Unexpected token") "/" "renderSSR(<Broken" "/x/a.test.tsx").warnings :=
  ⟨c7_parse_failure_fallback.1 "Unexpected token" "renderSSR(<Broken" "/x/a.test.tsx",
   by decide,
   (c7_parse_failure_fallback.2 "Unexpected token" "/" "renderSSR(<Broken" "/x/a.test.tsx" (by decide)).1,
   (c7_parse_failure_fallback.2 "Unexpected token" "/" "renderSSR(<Broken" "/x/a.test.tsx" (by decide)).2⟩

/-- C8: the render-local command attempts to delete the temporary derived
file exactly when the try-block that creates it runs (i.e. unless the
early `config.define` return fired before any file existed); a deletion
failure never changes the already-produced result and is surfaced only as
the logged cleanup warning. -/
theorem c8_temp_file_always_cleaned (o : LocalOracle) (testFilePath componentName : String)
    (allLocalComponents : List String) :
    (renderSSRLocalCommand o testFilePath componentName allLocalComponents).unlinkAttempted = o.hasDefine
    ∧ (renderSSRLocalCommand o testFilePath componentName allLocalComponents).result
        = (renderSSRLocalCommand { o with unlinkOk := true } testFilePath componentName allLocalComponents).result
    ∧ (renderSSRLocalCommand o testFilePath componentName allLocalComponents).warnings
        = (if o.hasDefine && !o.unlinkOk then [cleanupWarnText] else []) := by
  obtain ⟨hasDefine, readFile, parse, writeRes, loadModule, render, unlinkOk, nowMs, randSuffix⟩ := o
  cases hasDefine <;> cases unlinkOk <;> simp [renderSSRLocalCommand]

/-- C9 counterexample: resolving an already-resolved, project-root-relative,
`.tsx`-extensioned path a second time is NOT the identity.  With project
root `/proj` and importing test file `/proj/test/a.test.tsx`, the
heuristic fallback rebases `./src/C.tsx` against the importing file's
directory and returns `./test/src/C.tsx`; the primary strategy behaves
the same whenever the resolver errors (it delegates to the fallback). -/
theorem c9_resolver_not_idempotent_counterexample :
    fallbackResolveComponentPath "/proj" "./src/C.tsx" "/proj/test/a.test.tsx" = "./test/src/C.tsx"
    ∧ ¬ fallbackResolveComponentPath "/proj" "./src/C.tsx" "/proj/test/a.test.tsx" = "./src/C.tsx"
    ∧ (resolveComponentPath failingResolver "/proj" "./src/C.tsx" "/proj/test/a.test.tsx").1
        = "./test/src/C.tsx" :=
  ⟨by decide, by decide, by decide⟩

/-- C9 amended: the fallback strategy is idempotent exactly on the
non-relative branch — a bare specifier already carrying a `.tsx`/`.ts`
extension is returned unchanged — while a `./`-prefixed resolved path is
returned unchanged only when the importing file's directory is the
project root (demonstrated concretely). -/
theorem c9_resolver_idempotent_cases :
    (∀ (cwd p id : String),
       strStartsWith p "." = false →
       (strEndsWith p ".tsx" = true ∨ strEndsWith p ".ts" = true) →
       fallbackResolveComponentPath cwd p id = p)
    ∧ fallbackResolveComponentPath "/proj" "./src/C.tsx" "/proj/a.test.tsx" = "./src/C.tsx" := by
  constructor
  · intro cwd p id h1 h2
    cases h2 with
    | inl h => simp [fallbackResolveComponentPath, h1, h]
    | inr h => simp [fallbackResolveComponentPath, h1, h]
  · decide

/-- Witness for C9 at a concrete extensioned bare specifier. -/
theorem c9_resolver_idempotent_cases_witness :
    (strStartsWith "lib/comp.tsx" "." = false ∧ strEndsWith "lib/comp.tsx" ".tsx" = true)
    ∧ fallbackResolveComponentPath "/proj" "lib/comp.tsx" "/proj/test/a.test.tsx" = "lib/comp.tsx" :=
  ⟨⟨by decide, by decide⟩,
   c9_resolver_idempotent_cases.1 "/proj" "lib/comp.tsx" "/proj/test/a.test.tsx" (by decide)
     (Or.inl (by decide))⟩

/-- C10: a JSX attribute written without any value (boolean shorthand) is
silently dropped by prop extraction — no entry is produced, so it cannot
appear in the serialized props object of a rewritten bridge call (the
serialized fragment for such a lone attribute is empty). -/
theorem c10_valueless_attribute_skipped (code nm : String) (asp : Span) (rest : List Node) :
    extractPropsFromJSX (.jsxAttr (some nm) none asp :: rest) code = extractPropsFromJSX rest code
    ∧ extractPropsFromJSX [.jsxAttr (some nm) none asp] code = []
    ∧ buildPropsStr (extractPropsFromJSX [.jsxAttr (some nm) none asp] code) = "" := by
  refine ⟨?_, rfl, rfl⟩
  simp [extractPropsFromJSX]
